import Mathlib

/-!
Verification of the AirFly Insights dashboard script (src/app.py) against its
natural-language specification.

The script is a linear pandas/streamlit pipeline: a download/extraction
preamble (lines 10-37), CSV discovery (lines 40-50), `load_data` (lines 55-67),
a month filter (lines 73-78), three KPI metrics (lines 83-86) and five
group-and-aggregate chart derivations (lines 92-124).

The shallow embedding below models a pandas DataFrame of flight records as a
`List FlightRow`; `NaN` / missing cells are modelled as `Option`; Python
exceptions are modelled with `Except PyError`; numeric cells are modelled as
`Rat` (the dataset's values are decimal, and no claim depends on binary
floating-point artefacts).  Sorting done by pandas (`groupby(sort=True)`,
`nlargest`, `sort_values`, `value_counts`) is modelled with
`List.insertionSort`; every verified ordering property is tie-order
insensitive, matching the spec's "tie-break ... unspecified".
-/

namespace AirFly

/-- Raw CSV record as read by `pd.read_csv`: one row of the flight dataset,
with the columns that src/app.py touches.  Numeric columns that can contain
missing values (`DepTime`, the delay-minute columns) are `Option`-valued;
`CancellationCode` is empty/NaN on non-cancelled rows, hence `Option`. -/
structure RawRow where
  origin : String
  dest : String
  uniqueCarrier : String
  month : Int
  depTime : Option Int
  arrDelay : Option Rat
  depDelay : Option Rat
  carrierDelay : Option Rat
  weatherDelay : Option Rat
  nasDelay : Option Rat
  securityDelay : Option Rat
  lateAircraftDelay : Option Rat
  cancelled : Int
  cancellationCode : Option String
deriving DecidableEq

/-- Flight record after `load_data` (src/app.py lines 55-65): the derived
columns `Route` and `DepHour` are present, the seven delay columns have been
`fillna(0)`-coerced to plain numbers, and the `CancellationReason` column
(written later, at line 113) is still absent, modelled as `none`. -/
structure FlightRow where
  origin : String
  dest : String
  uniqueCarrier : String
  month : Int
  depTime : Option Int
  route : String
  depHour : Int
  arrDelay : Rat
  depDelay : Rat
  carrierDelay : Rat
  weatherDelay : Rat
  nasDelay : Rat
  securityDelay : Rat
  lateAircraftDelay : Rat
  cancelled : Int
  cancellationCode : Option String
  cancellationReason : Option String
deriving DecidableEq

/-- Per-row body of `load_data` (src/app.py lines 60-64):
`Route = Origin + "-" + Dest`;
`DepHour = to_numeric(DepTime.fillna(0)).astype(int) // 100` (Python `//` on
integers is floor division, `Int.fdiv`); each delay column is `fillna(0)`. -/
def processRow (r : RawRow) : FlightRow where
  origin := r.origin
  dest := r.dest
  uniqueCarrier := r.uniqueCarrier
  month := r.month
  depTime := r.depTime
  route := r.origin ++ "-" ++ r.dest
  depHour := (r.depTime.getD 0).fdiv 100
  arrDelay := r.arrDelay.getD 0
  depDelay := r.depDelay.getD 0
  carrierDelay := r.carrierDelay.getD 0
  weatherDelay := r.weatherDelay.getD 0
  nasDelay := r.nasDelay.getD 0
  securityDelay := r.securityDelay.getD 0
  lateAircraftDelay := r.lateAircraftDelay.getD 0
  cancelled := r.cancelled
  cancellationCode := r.cancellationCode
  cancellationReason := none

/-- The `load_data` function of src/app.py (lines 55-65):
`pd.read_csv(path, nrows=50000)` reads at most the first 50000 rows, then the
feature engineering of `processRow` is applied column-wise. -/
def load_data (raws : List RawRow) : List FlightRow :=
  (raws.take 50000).map processRow

/-- Python exceptions raised by the script, as far as they are observable. -/
inductive PyError
  | nameError (n : String)
  | valueError (s : String)
  | fileNotFound (p : String)
deriving DecidableEq

/-- Streamlit UI messages emitted by the script. -/
inductive Msg
  | info (s : String)
  | success (s : String)
  | error (s : String)
deriving DecidableEq

/-- Suffix test `f.endswith(".csv")` of src/app.py line 42, expressed on the
character list so that it evaluates by kernel reduction. -/
def hasCsvSuffix (f : String) : Bool :=
  f.toList.reverse.take 4 == ".csv".toList.reverse

/-- CSV discovery loop of src/app.py lines 40-44: scan the data-directory
listing, take the first name ending in ".csv", and join it to the
directory (`os.path.join("data", f)`). -/
def find_csv (files : List String) : Option String :=
  (files.find? hasCsvSuffix).map (fun f => "data/" ++ f)

/-- Lines 46-50 and 67 of src/app.py.  When discovery fails the script shows
`st.error(...)` — but then line 67 still runs `df = load_data(csv_file)` with
`csv_file = None`, and `pd.read_csv(None, nrows=50000)` raises an unstructured
`ValueError`, so the run terminates instead of degrading.  When discovery
succeeds the script shows `st.success` and loads the file (line 50's full
`pd.read_csv` is immediately overwritten by line 67, so only `load_data`'s
result is observable).  `contents` maps a path to the parsed rows of the file
at that path. -/
def loaderStage (files : List String) (contents : String → List RawRow) :
    List Msg × Except PyError (List FlightRow) :=
  match find_csv files with
  | none =>
      ([Msg.error "❌ CSV file not found after extraction!"],
        Except.error (PyError.valueError "Invalid file path or buffer object type: NoneType"))
  | some p =>
      ([Msg.success ("✅ Found dataset: " ++ p)],
        Except.ok (load_data (contents p)))

/-- Python global names bound before line 28 of src/app.py is reached: the
imports of lines 2-7 (`st`, `pd`, `os`, `px`, `zipfile`, `KaggleApi`) and the
top-level assignments `DATA_DIR` (line 20) and `zip_path` (line 24).  The
name `csv_path` is assigned nowhere in the file (line 43 assigns `csv_file`),
so it is absent from this list. -/
def globalsBeforeLine28 : List String :=
  ["st", "pd", "os", "px", "zipfile", "KaggleApi", "DATA_DIR", "zip_path"]

/-- Python name lookup: evaluating an unbound name raises `NameError`. -/
def lookupName (env : List String) (n : String) : Except PyError Unit :=
  if n ∈ env then Except.ok () else Except.error (PyError.nameError n)

/-- Top-to-bottom run of src/app.py from line 28 on (credentials and the
lines 10-26 assignments having succeeded).  Line 28 evaluates
`os.path.exists(csv_path)`; line 36 then opens `zip_path` unconditionally
(it is outside the `if` of line 28); lines 40-67 are `loaderStage`.
`files` is the data-directory listing, `contents` the file parser. -/
def runScript (files : List String) (contents : String → List RawRow) :
    Except PyError (List Msg × List FlightRow) := do
  _ ← lookupName globalsBeforeLine28 "csv_path"
  _ ← (if "airlinedelaycauses.zip" ∈ files then Except.ok ()
       else Except.error (PyError.fileNotFound "data/airlinedelaycauses.zip"))
  match loaderStage files contents with
  | (msgs, Except.ok df) => Except.ok (msgs, df)
  | (_, Except.error e) => Except.error e

/-- Month selector of the sidebar (src/app.py lines 73-74): the sentinel
string "All" or one of the integer month values present in the data. -/
inductive MonthSel
  | all
  | month (mo : Int)
deriving DecidableEq

/-- Month filter of src/app.py lines 77-78:
`if month != "All": df = df[df["Month"] == int(month)]`. -/
def applyMonthFilter (sel : MonthSel) (df : List FlightRow) : List FlightRow :=
  match sel with
  | MonthSel.all => df
  | MonthSel.month mo => df.filter (fun r => r.month == mo)

/-- Mean of a pandas numeric series, `NaN` (on an empty series) modelled as
`none`.  Mirrors `Series.mean()` for series without missing values. -/
def seriesMean (xs : List Rat) : Option Rat :=
  if xs.isEmpty then none else some (xs.sum / (xs.length : Rat))

/-- Rounding to two decimal places, as in `round(x, 2)`.  (Python rounds
half-way cases to even; `round` here rounds half-way cases up.  No verified
claim evaluates `round2` at a half-way value, so the difference is inert.) -/
def round2 (x : Rat) : Rat := ((round (x * 100) : Int) : Rat) / 100

/-- KPI 1 (line 84): `int(df.shape[0])`. -/
def kpiTotalFlights (df : List FlightRow) : Nat := df.length

/-- KPI 2 (line 85): `round(df["ArrDelay"].mean(skipna=True), 2)`; `NaN` on an
empty table is `none`. -/
def kpiAvgArrDelay (df : List FlightRow) : Option Rat :=
  (seriesMean (df.map (fun r => r.arrDelay))).map round2

/-- KPI 3 (line 86): `round(df['Cancelled'].mean()*100, 2)`; the mean of an
empty `Cancelled` series is `NaN`, modelled as `none`. -/
def kpiCancellationRate (df : List FlightRow) : Option Rat :=
  (seriesMean (df.map (fun r => (r.cancelled : Rat)))).map (fun x => round2 (x * 100))

/-- Rendering of KPI 3 by the f-string `f"{...}%"` of line 86: Python formats
the float `nan` as the text "nan", so an undefined rate displays as "nan%",
and a defined rate displays as its decimal text followed by "%".  (The exact
decimal text of the defined case is not relied on by any claim.) -/
def formatPct : Option Rat → String
  | none => "nan%"
  | some q => toString q ++ "%"

/-- Relation "key of the first argument is at least key of the second": the
descending-order comparator used to model `nlargest` / descending
`sort_values`. -/
def keyGE {α : Type*} {β : Type*} [Preorder β] (key : α → β) (a b : α) : Prop :=
  key b ≤ key a

instance {α : Type*} {β : Type*} [LinearOrder β] (key : α → β) :
    DecidableRel (keyGE key) :=
  fun a b => inferInstanceAs (Decidable (key b ≤ key a))

instance {α : Type*} {β : Type*} [LinearOrder β] (key : α → β) :
    IsTotal α (keyGE key) :=
  ⟨fun a b => le_total (key b) (key a)⟩

instance {α : Type*} {β : Type*} [Preorder β] (key : α → β) :
    IsTrans α (keyGE key) :=
  ⟨fun _ _ _ h1 h2 => le_trans h2 h1⟩

/-- Sort a list so that the given key is descending (ties in an unspecified
order), as `DataFrame.sort_values(key, ascending=False)` does. -/
def sortDesc {α : Type*} {β : Type*} [LinearOrder β] (key : α → β) (l : List α) : List α :=
  l.insertionSort (keyGE key)

/-- The `DataFrame.nlargest(n, key)` operation: the `n` rows with the largest
key, in descending key order (documented by pandas as equivalent to a
descending sort followed by `head(n)`). -/
def nlargest {α : Type*} {β : Type*} [LinearOrder β] (n : Nat) (key : α → β) (l : List α) : List α :=
  (sortDesc key l).take n

/-- Ascending sort, as `groupby(sort=True)` orders its group keys. -/
def sortAsc {α : Type*} [LinearOrder α] (l : List α) : List α :=
  l.insertionSort (fun a b => a ≤ b)

/-- Mean of the values of one group produced by `groupby(...).agg/mean`.
Groups produced by a group-by are nonempty, so the empty case (0 here, `NaN`
in pandas) is never reached by the definitions below. -/
def listMean (xs : List Rat) : Rat := xs.sum / (xs.length : Rat)

/-- One row of the top-routes table `rt` (src/app.py line 94). -/
structure RouteStat where
  route : String
  flights : Nat
  avg_arr_delay : Rat
deriving DecidableEq

/-- Group-by part of line 94:
`df.groupby("Route").agg(flights=('Route','count'), avg_arr_delay=('ArrDelay','mean')).reset_index()`
— one row per distinct route (keys in ascending order), with the group size
and the group's mean arrival delay. -/
def routeStats (df : List FlightRow) : List RouteStat :=
  (sortAsc (df.map (fun r => r.route)).dedup).map (fun k =>
    { route := k
      flights := (df.filter (fun r => r.route == k)).length
      avg_arr_delay := listMean ((df.filter (fun r => r.route == k)).map (fun r => r.arrDelay)) })

/-- The table `rt` of src/app.py line 94: the group-by above followed by
`.nlargest(15, "flights")`. -/
def rt (df : List FlightRow) : List RouteStat :=
  nlargest 15 (fun s => s.flights) (routeStats df)

/-- One row of the busiest-origin-airports table `ap` (src/app.py line 100). -/
structure OriginStat where
  origin : String
  departures : Nat
  avg_arr_delay : Rat
deriving DecidableEq

/-- Group-by part of line 100:
`df.groupby("Origin").agg(departures=('Origin','count'), avg_arr_delay=('ArrDelay','mean')).reset_index()`. -/
def originStats (df : List FlightRow) : List OriginStat :=
  (sortAsc (df.map (fun r => r.origin)).dedup).map (fun k =>
    { origin := k
      departures := (df.filter (fun r => r.origin == k)).length
      avg_arr_delay := listMean ((df.filter (fun r => r.origin == k)).map (fun r => r.arrDelay)) })

/-- The table `ap` of src/app.py line 100: the group-by above followed by
`.nlargest(15, "departures")`. -/
def ap (df : List FlightRow) : List OriginStat :=
  nlargest 15 (fun s => s.departures) (originStats df)

/-- One row of the monthly-trend table `m` (src/app.py line 106). -/
structure MonthStat where
  month : Int
  avg_arr_delay : Rat
  cancellations : Int
deriving DecidableEq

/-- The table `m` of src/app.py line 106:
`df.groupby("Month").agg(avg_arr_delay=('ArrDelay','mean'), cancellations=('Cancelled','sum')).reset_index()`
— one row per distinct month, keys ascending (pandas `groupby` sorts keys). -/
def monthlyTrend (df : List FlightRow) : List MonthStat :=
  (sortAsc (df.map (fun r => r.month)).dedup).map (fun k =>
    { month := k
      avg_arr_delay := listMean ((df.filter (fun r => r.month == k)).map (fun r => r.arrDelay))
      cancellations := ((df.filter (fun r => r.month == k)).map (fun r => r.cancelled)).sum })

/-- The fixed map `cmap` of src/app.py line 112, as the partial function it
is used as by `Series.map`: unmapped codes become `NaN` (`none`). -/
def cmap (c : String) : Option String :=
  if c = "A" then some "Carrier"
  else if c = "B" then some "Weather"
  else if c = "C" then some "NAS"
  else if c = "D" then some "Security"
  else none

/-- Per-row effect of line 113 of src/app.py: the `CancellationReason` cell
becomes `cmap` of the row's `CancellationCode` (a `NaN` code maps to `NaN`,
modelled by `Option.bind`); every other cell is untouched. -/
def setReason (r : FlightRow) : FlightRow :=
  { r with cancellationReason := r.cancellationCode.bind cmap }

/-- Line 113 of src/app.py:
`df['CancellationReason'] = df['CancellationCode'].map(cmap)` — writes a new
column into the shared table `df`. -/
def addCancellationReason (df : List FlightRow) : List FlightRow :=
  df.map setReason

/-- The `Series.value_counts()` of line 114: one `(value, count)` pair per
distinct non-missing value, ordered by count descending (`NaN`s were dropped
by the caller's `filterMap`). -/
def value_counts (xs : List String) : List (String × Nat) :=
  sortDesc (fun p => p.2) (xs.dedup.map (fun v => (v, xs.count v)))

/-- Multiset of `CancellationReason` cells of the `Cancelled == 1` rows of
the (column-augmented) table — the series whose `value_counts` line 114
takes; `filterMap` drops the `NaN` reasons exactly as `value_counts` does. -/
def reasonList (df : List FlightRow) : List String :=
  ((addCancellationReason df).filter (fun r => r.cancelled == 1)).filterMap
    (fun r => r.cancellationReason)

/-- The `cancel_counts` table of src/app.py lines 113-115. -/
def cancel_counts (df : List FlightRow) : List (String × Nat) :=
  value_counts (reasonList df)

/-- One row of the per-carrier delay-cause mean table `cd`
(src/app.py line 121). -/
structure CarrierStat where
  uniqueCarrier : String
  carrierDelay : Rat
  weatherDelay : Rat
  nasDelay : Rat
  securityDelay : Rat
  lateAircraftDelay : Rat
deriving DecidableEq

/-- The table `cd` of src/app.py line 121:
`df.groupby("UniqueCarrier")[five delay columns].mean().reset_index()`. -/
def cd (df : List FlightRow) : List CarrierStat :=
  (sortAsc (df.map (fun r => r.uniqueCarrier)).dedup).map (fun k =>
    { uniqueCarrier := k
      carrierDelay := listMean ((df.filter (fun r => r.uniqueCarrier == k)).map (fun r => r.carrierDelay))
      weatherDelay := listMean ((df.filter (fun r => r.uniqueCarrier == k)).map (fun r => r.weatherDelay))
      nasDelay := listMean ((df.filter (fun r => r.uniqueCarrier == k)).map (fun r => r.nasDelay))
      securityDelay := listMean ((df.filter (fun r => r.uniqueCarrier == k)).map (fun r => r.securityDelay))
      lateAircraftDelay := listMean ((df.filter (fun r => r.uniqueCarrier == k)).map (fun r => r.lateAircraftDelay)) })

/-- The `head(8)` part of line 122: `cd.sort_values("CarrierDelay",
ascending=False).head(8)` — the at-most-8 carriers with the highest mean
`CarrierDelay`. -/
def topCarriers (df : List FlightRow) : List CarrierStat :=
  nlargest 8 (fun s => s.carrierDelay) (cd df)

/-- The five delay-cause column names melted by line 122, in column order. -/
def delayCauseCols : List String :=
  ["CarrierDelay", "WeatherDelay", "NASDelay", "SecurityDelay", "LateAircraftDelay"]

/-- Cell lookup of a wide-format carrier row by delay-cause column name. -/
def causeValue (s : CarrierStat) (c : String) : Rat :=
  if c = "CarrierDelay" then s.carrierDelay
  else if c = "WeatherDelay" then s.weatherDelay
  else if c = "NASDelay" then s.nasDelay
  else if c = "SecurityDelay" then s.securityDelay
  else if c = "LateAircraftDelay" then s.lateAircraftDelay
  else 0

/-- One row of the long-format table `topc` (src/app.py line 122). -/
structure MeltRow where
  uniqueCarrier : String
  cause : String
  minutes : Rat
deriving DecidableEq

/-- The table `topc` of src/app.py line 122: the wide-to-long
`.melt(id_vars="UniqueCarrier", var_name="Cause", value_name="Minutes")` of
the top-8 table — `melt` emits, for each value column in order, one row per
input row. -/
def topc (df : List FlightRow) : List MeltRow :=
  delayCauseCols.flatMap (fun c =>
    (topCarriers df).map (fun s =>
      { uniqueCarrier := s.uniqueCarrier, cause := c, minutes := causeValue s c }))

/-- Modelled from the spec (§4.3, §8): the spec's aggregation-resolution rule
"use precomputed if present, else compute from full table" for the monthly
trend, together with the spec's `monthly_stats` precomputed-table notion.
No such rule or table exists anywhere in src/app.py — line 106 always
computes from the full table — so this definition follows the spec's words
and exists only to be compared against the code-side `monthlyTrend`. -/
def monthlyTrendResolve (pre : Option (List MonthStat)) (df : List FlightRow) :
    List MonthStat :=
  match pre with
  | some t => t
  | none => monthlyTrend df

/-- Concrete raw rows: the end-to-end example table of spec §8. -/
def exRaw1 : RawRow where
  origin := "JFK"
  dest := "LAX"
  uniqueCarrier := "AA"
  month := 1
  depTime := some 930
  arrDelay := some 10
  depDelay := some 2
  carrierDelay := some 0
  weatherDelay := some 0
  nasDelay := some 0
  securityDelay := some 0
  lateAircraftDelay := some 0
  cancelled := 0
  cancellationCode := none

/-- Second spec §8 example row: a weather cancellation in month 1. -/
def exRaw2 : RawRow where
  origin := "JFK"
  dest := "LAX"
  uniqueCarrier := "AA"
  month := 1
  depTime := some 1234
  arrDelay := some 20
  depDelay := some 5
  carrierDelay := some 0
  weatherDelay := some 15
  nasDelay := some 0
  securityDelay := some 0
  lateAircraftDelay := some 0
  cancelled := 1
  cancellationCode := some "B"

/-- Third spec §8 example row: month 2, ORD to DFW, not cancelled; its
`DepTime` is missing, exercising the `fillna(0)` path of `DepHour`. -/
def exRaw3 : RawRow where
  origin := "ORD"
  dest := "DFW"
  uniqueCarrier := "UA"
  month := 2
  depTime := none
  arrDelay := some 5
  depDelay := some 0
  carrierDelay := some 1
  weatherDelay := some 0
  nasDelay := some 2
  securityDelay := some 0
  lateAircraftDelay := some 0
  cancelled := 0
  cancellationCode := none

/-- The spec §8 example table, as loaded by `load_data`. -/
def exDf : List FlightRow := load_data [exRaw1, exRaw2, exRaw3]

/-- An `nlargest` result never has more than `n` rows. -/
theorem nlargest_length_le {α β : Type*} [LinearOrder β] (n : Nat) (key : α → β)
    (l : List α) : (nlargest n key l).length ≤ n := by
  rw [nlargest, List.length_take]
  exact min_le_left _ _

/-- An `nlargest` result is sorted descending by its key. -/
theorem nlargest_sorted {α β : Type*} [LinearOrder β] (n : Nat) (key : α → β)
    (l : List α) : List.Sorted (keyGE key) (nlargest n key l) :=
  List.Pairwise.sublist (List.take_sublist _ _) (List.sorted_insertionSort _ _)

/-- When the input has at most `n` rows, `nlargest` keeps all of them. -/
theorem nlargest_perm_of_le {α β : Type*} [LinearOrder β] {n : Nat} (key : α → β)
    {l : List α} (h : l.length ≤ n) : (nlargest n key l).Perm l := by
  have hl : (sortDesc key l).length ≤ n := by
    rw [sortDesc, List.length_insertionSort]
    exact h
  rw [nlargest, List.take_of_length_le hl]
  exact List.perm_insertionSort _ _

/-- The route group-by has one row per distinct route of the input. -/
theorem routeStats_length (df : List FlightRow) :
    (routeStats df).length = ((df.map (fun r => r.route)).dedup).length := by
  rw [routeStats, List.length_map, sortAsc, List.length_insertionSort]

/-- The origin group-by has one row per distinct origin of the input. -/
theorem originStats_length (df : List FlightRow) :
    (originStats df).length = ((df.map (fun r => r.origin)).dedup).length := by
  rw [originStats, List.length_map, sortAsc, List.length_insertionSort]

/-- The carrier group-by has one row per distinct carrier of the input. -/
theorem cd_length (df : List FlightRow) :
    (cd df).length = ((df.map (fun r => r.uniqueCarrier)).dedup).length := by
  rw [cd, List.length_map, sortAsc, List.length_insertionSort]

/-- Months appearing in the monthly-trend table come from the input table. -/
theorem monthlyTrend_month_mem {df : List FlightRow} {s : MonthStat}
    (hs : s ∈ monthlyTrend df) : s.month ∈ df.map (fun r => r.month) := by
  rcases List.mem_map.mp hs with ⟨k, hk, rfl⟩
  rw [sortAsc, List.mem_insertionSort, List.mem_dedup] at hk
  exact hk

/-- Membership in a `value_counts` table characterised by raw counts. -/
theorem mem_value_counts {xs : List String} {l : String} {n : Nat} :
    (l, n) ∈ value_counts xs ↔ l ∈ xs ∧ n = xs.count l := by
  rw [value_counts, sortDesc, (List.perm_insertionSort _ _).mem_iff]
  constructor
  · intro h
    rcases List.mem_map.mp h with ⟨v, hv, heq⟩
    injection heq with h1 h2
    subst h1
    subst h2
    exact ⟨List.mem_dedup.mp hv, rfl⟩
  · rintro ⟨hl, rfl⟩
    exact List.mem_map.mpr ⟨l, List.mem_dedup.mpr hl, rfl⟩

/-- Counting one label in the reason series equals counting the matching rows
of the input table. -/
theorem count_reasonList (df : List FlightRow) (l : String) :
    (reasonList df).count l =
      df.countP (fun r => r.cancelled == 1 && r.cancellationCode.bind cmap == some l) := by
  induction df with
  | nil => rfl
  | cons r df ih =>
      rw [reasonList, addCancellationReason, List.map_cons, List.filter_cons] at *
      by_cases hc : r.cancelled = 1
      · have hc' : ((setReason r).cancelled == 1) = true := by
          simp [setReason, hc]
        rw [if_pos hc', List.filterMap_cons, List.countP_cons]
        cases hm : (setReason r).cancellationReason with
        | none =>
            have : r.cancellationCode.bind cmap = none := by
              simpa [setReason] using hm
            simp [ih, this, hc]
        | some v =>
            have hv : r.cancellationCode.bind cmap = some v := by
              simpa [setReason] using hm
            by_cases hlv : v = l
            · subst hlv
              simp [List.count_cons, ih, hv, hc]
            · simp [List.count_cons, ih, hv, hc, hlv]
      · have hc' : ¬ ((setReason r).cancelled == 1) = true := by
          simp [setReason, hc]
        rw [if_neg hc', List.countP_cons]
        simp [ih, hc]

/-- Projections that ignore the `CancellationReason` column are unchanged by
the column write of line 113. -/
theorem map_proj_setReason {β : Type*} (g : FlightRow → β)
    (hg : ∀ r, g (setReason r) = g r) (df : List FlightRow) :
    (df.map setReason).map g = df.map g := by
  rw [List.map_map]
  exact List.map_congr_left (fun a _ => hg a)

/-- Filters that ignore the `CancellationReason` column commute with the
column write of line 113. -/
theorem filter_setReason (p : FlightRow → Bool)
    (hp : ∀ r, p (setReason r) = p r) (df : List FlightRow) :
    (df.map setReason).filter p = (df.filter p).map setReason := by
  rw [List.filter_map]
  congr 1
  exact List.filter_congr (fun a _ => hp a)

/-- The carrier group-by reads none of the `CancellationReason` cells, so the
column write of line 113 leaves it unchanged. -/
theorem cd_addCancellationReason (df : List FlightRow) :
    cd (addCancellationReason df) = cd df := by
  rw [addCancellationReason, cd, cd,
    map_proj_setReason (fun r => r.uniqueCarrier) (fun _ => rfl)]
  refine List.map_congr_left (fun k _ => ?_)
  rw [filter_setReason (fun r => r.uniqueCarrier == k) (fun _ => rfl),
    map_proj_setReason (fun r => r.carrierDelay) (fun _ => rfl),
    map_proj_setReason (fun r => r.weatherDelay) (fun _ => rfl),
    map_proj_setReason (fun r => r.nasDelay) (fun _ => rfl),
    map_proj_setReason (fun r => r.securityDelay) (fun _ => rfl),
    map_proj_setReason (fun r => r.lateAircraftDelay) (fun _ => rfl)]

/-- C1: the claim says a run with no CSV after extraction surfaces the error
message and continues degraded, never raising an unstructured error.  The
code does surface `st.error`, but line 67 then unconditionally runs
`load_data(csv_file)` with `csv_file = None`, and `pd.read_csv(None)` raises
an unstructured `ValueError` that terminates the run — the guard of line 46
shows the degraded path was intended, so the code, not the claim, is wrong.
This theorem evaluates the discovery-and-load stage at a data directory
listing with no ".csv" entry: the message is emitted and the run ends in the
unstructured error. -/
theorem C1_missing_csv_unstructured_crash :
    loaderStage ["README.md", "airlinedelaycauses.zip"] (fun _ => []) =
      ([Msg.error "❌ CSV file not found after extraction!"],
        Except.error (PyError.valueError "Invalid file path or buffer object type: NoneType")) :=
  rfl

/-- C2: the month filter is the identity for the sentinel "All", and for a
month value `mo` it keeps exactly the rows whose `Month` equals `mo` (a
sublist containing all and only those rows, with the matching-row count as
its length); consequently every row of the monthly-trend aggregation of the
filtered table is for month `mo`.  The filter is a pure function of its
inputs by construction. -/
theorem C2_month_filter_exact (df : List FlightRow) (mo : Int) :
    applyMonthFilter MonthSel.all df = df ∧
    (applyMonthFilter (MonthSel.month mo) df).Sublist df ∧
    (∀ r ∈ applyMonthFilter (MonthSel.month mo) df, r.month = mo) ∧
    (∀ r ∈ df, r.month = mo → r ∈ applyMonthFilter (MonthSel.month mo) df) ∧
    (applyMonthFilter (MonthSel.month mo) df).length =
      df.countP (fun r => r.month == mo) ∧
    (∀ s ∈ monthlyTrend (applyMonthFilter (MonthSel.month mo) df), s.month = mo) := by
  refine ⟨rfl, List.filter_sublist _, ?_, ?_, ?_, ?_⟩
  · intro r hr
    simpa using (List.mem_filter.mp hr).2
  · intro r hr hm
    exact List.mem_filter.mpr ⟨hr, by simp [hm]⟩
  · exact (List.countP_eq_length_filter _ _).symm
  · intro s hs
    rcases List.mem_map.mp (monthlyTrend_month_mem hs) with ⟨r, hr, hm⟩
    have : r.month = mo := by simpa using (List.mem_filter.mp hr).2
    rw [← hm]
    exact this

/-- Witness for C2 at the spec §8 example table with month 1. -/
theorem C2_month_filter_witness :
    applyMonthFilter MonthSel.all exDf = exDf ∧
    (applyMonthFilter (MonthSel.month 1) exDf).length =
      exDf.countP (fun r => r.month == 1) :=
  ⟨(C2_month_filter_exact exDf 1).1, (C2_month_filter_exact exDf 1).2.2.2.2.1⟩

/-- C3: the top-routes table `rt` and the top-origin-airports table `ap`
each have at most 15 rows, are sorted descending by their count metric
(`flights` / `departures`), and keep every group when the input has fewer
than 15 distinct groups. -/
theorem C3_top15_aggregations (df : List FlightRow) :
    (rt df).length ≤ 15 ∧
    List.Sorted (fun a b => b.flights ≤ a.flights) (rt df) ∧
    (((df.map (fun r => r.route)).dedup).length < 15 → (rt df).Perm (routeStats df)) ∧
    (ap df).length ≤ 15 ∧
    List.Sorted (fun a b => b.departures ≤ a.departures) (ap df) ∧
    (((df.map (fun r => r.origin)).dedup).length < 15 → (ap df).Perm (originStats df)) := by
  refine ⟨nlargest_length_le _ _ _, nlargest_sorted _ _ _, ?_,
    nlargest_length_le _ _ _, nlargest_sorted _ _ _, ?_⟩
  · intro h
    exact nlargest_perm_of_le _ (by rw [routeStats_length]; omega)
  · intro h
    exact nlargest_perm_of_le _ (by rw [originStats_length]; omega)

/-- Witness for C3 at the spec §8 example table (2 routes, 2 origins). -/
theorem C3_top15_witness :
    (rt exDf).length ≤ 15 ∧ (rt exDf).Perm (routeStats exDf) ∧
    (ap exDf).Perm (originStats exDf) :=
  ⟨(C3_top15_aggregations exDf).1,
    (C3_top15_aggregations exDf).2.2.1 (by decide),
    (C3_top15_aggregations exDf).2.2.2.2.2 (by decide)⟩

/-- C4: the carrier delay-cause breakdown selects at most the 8 carriers
with the highest mean `CarrierDelay` (sorted descending on it, all carriers
kept when there are at most 8), and the melted long-form table `topc` has
exactly (number of selected carriers × 5) rows — one per carrier×cause
pair. -/
theorem C4_carrier_breakdown (df : List FlightRow) :
    (topCarriers df).length ≤ 8 ∧
    List.Sorted (fun a b => b.carrierDelay ≤ a.carrierDelay) (topCarriers df) ∧
    (((df.map (fun r => r.uniqueCarrier)).dedup).length ≤ 8 →
      (topCarriers df).Perm (cd df)) ∧
    (topc df).length = 5 * (topCarriers df).length ∧
    (∀ s ∈ topCarriers df, ∀ c ∈ delayCauseCols,
      ({ uniqueCarrier := s.uniqueCarrier, cause := c,
         minutes := causeValue s c } : MeltRow) ∈ topc df) := by
  refine ⟨nlargest_length_le _ _ _, nlargest_sorted _ _ _, ?_, ?_, ?_⟩
  · intro h
    exact nlargest_perm_of_le _ (by rw [cd_length]; omega)
  · simp only [topc, delayCauseCols, List.flatMap_cons, List.flatMap_nil,
      List.length_append, List.length_map, List.length_nil]
    omega
  · intro s hs c hc
    exact List.mem_flatMap.mpr ⟨c, hc, List.mem_map.mpr ⟨s, hs, rfl⟩⟩

/-- Witness for C4 at the spec §8 example table (2 carriers, 10 melt rows). -/
theorem C4_carrier_witness :
    (topc exDf).length = 5 * (topCarriers exDf).length ∧
    (topCarriers exDf).Perm (cd exDf) :=
  ⟨(C4_carrier_breakdown exDf).2.2.2.1,
    (C4_carrier_breakdown exDf).2.2.1 (by decide)⟩

/-- C5: the cancellation-reason aggregation maps codes exactly by
{A→Carrier, B→Weather, C→NAS, D→Security} (everything else unmapped), and a
pair `(l, n)` appears in `cancel_counts` exactly when `n` is positive and
equals the number of rows with `Cancelled == 1` whose code maps to label
`l` — so rows with unmapped or missing codes are consistently excluded, and
the count is total (no crash) on every table. -/
theorem C5_cancellation_counts (df : List FlightRow) (l : String) (n : Nat) :
    (cmap "A" = some "Carrier" ∧ cmap "B" = some "Weather" ∧
      cmap "C" = some "NAS" ∧ cmap "D" = some "Security") ∧
    (∀ c, c ≠ "A" → c ≠ "B" → c ≠ "C" → c ≠ "D" → cmap c = none) ∧
    ((l, n) ∈ cancel_counts df ↔
      0 < n ∧
        n = df.countP
          (fun r => r.cancelled == 1 && r.cancellationCode.bind cmap == some l)) := by
  refine ⟨⟨rfl, rfl, rfl, rfl⟩, ?_, ?_⟩
  · intro c h1 h2 h3 h4
    simp [cmap, h1, h2, h3, h4]
  · rw [cancel_counts, mem_value_counts, count_reasonList]
    have hmem : l ∈ reasonList df ↔
        0 < df.countP
          (fun r => r.cancelled == 1 && r.cancellationCode.bind cmap == some l) := by
      rw [← count_reasonList]
      exact List.count_pos_iff.symm
    constructor
    · rintro ⟨hl, rfl⟩
      exact ⟨hmem.mp hl, rfl⟩
    · rintro ⟨hn, rfl⟩
      exact ⟨hmem.mpr hn, rfl⟩

/-- Witness for C5: on the spec §8 example table the counts table contains
exactly one weather cancellation. -/
theorem C5_cancellation_witness : ("Weather", 1) ∈ cancel_counts exDf :=
  (C5_cancellation_counts exDf "Weather" 1).2.2.mpr ⟨by decide, by decide⟩

/-- C6 counterexample: on the empty (zero-row) table the cancellation-rate
KPI value is the `NaN` marker and line 86 renders it as the text "nan%" —
an informational placeholder is never displayed, refuting the claim's
"displays an informational placeholder rather than NaN" (its no-crash half
does hold and is part of the amended theorem). -/
theorem C6_zero_rows_counterexample :
    kpiCancellationRate ([] : List FlightRow) = none ∧
    formatPct (kpiCancellationRate ([] : List FlightRow)) = "nan%" :=
  ⟨rfl, rfl⟩

/-- C6 (amended): for a zero-row filtered table the KPI computation is total
(no division-by-zero error is raised; pandas yields `NaN`), but the
cancellation-rate KPI then displays "nan%", not an informational
placeholder; on any nonempty table the rate is a defined number. -/
theorem C6_zero_rows_amended (df : List FlightRow) :
    (df = [] → kpiCancellationRate df = none ∧
      formatPct (kpiCancellationRate df) = "nan%") ∧
    (df ≠ [] → ∃ q, kpiCancellationRate df = some q) := by
  constructor
  · rintro rfl
    exact ⟨rfl, rfl⟩
  · intro h
    have hne : (df.map (fun r => (r.cancelled : Rat))).isEmpty = false := by
      simp [List.isEmpty_iff, h]
    refine ⟨round2 ((df.map (fun r => (r.cancelled : Rat))).sum /
      ((df.map (fun r => (r.cancelled : Rat))).length : Rat) * 100), ?_⟩
    simp [kpiCancellationRate, seriesMean, hne]

/-- Witness for C6 at the empty table and the spec §8 example table. -/
theorem C6_zero_rows_witness :
    formatPct (kpiCancellationRate ([] : List FlightRow)) = "nan%" ∧
    (∃ q, kpiCancellationRate exDf = some q) :=
  ⟨((C6_zero_rows_amended []).1 rfl).2, (C6_zero_rows_amended exDf).2 (by decide)⟩

/-- C7 counterexample: the cancellation-reason stage does not leave the
input table unchanged — line 113 writes the `CancellationReason` column into
the shared `df`, so on the spec §8 example table (whose second row has
`CancellationCode` "B") the table after the write differs from the input,
refuting "every aggregation stage ... leaves the input table unchanged". -/
theorem C7_mutation_counterexample : addCancellationReason exDf ≠ exDf := by
  decide

/-- C7 (amended): all aggregations are deterministic functions of their
input table, and the group-by stages compute their outputs without altering
it, but the cancellation-reason stage mutates the shared table: line 113
rewrites exactly the `CancellationReason` column (every other column, the
row count and the row order are unchanged, and each new cell is `cmap` of
the row's code); the mutation does not change the carrier delay-cause
breakdown computed from the table afterwards. -/
theorem C7_frame_amended (df : List FlightRow) :
    ((addCancellationReason df).map (fun r => { r with cancellationReason := none }) =
      df.map (fun r => { r with cancellationReason := none })) ∧
    (∀ r ∈ addCancellationReason df,
      r.cancellationReason = r.cancellationCode.bind cmap) ∧
    (addCancellationReason df).length = df.length ∧
    topc (addCancellationReason df) = topc df := by
  refine ⟨?_, ?_, ?_, ?_⟩
  · exact map_proj_setReason
      (fun r => ({ r with cancellationReason := none } : FlightRow)) (fun r => rfl) df
  · intro r hr
    rcases List.mem_map.mp hr with ⟨r0, _, rfl⟩
    rfl
  · exact List.length_map _ _
  · rw [topc, topc, topCarriers, topCarriers, cd_addCancellationReason]

/-- Witness for C7 (amended) at the spec §8 example table. -/
theorem C7_frame_witness :
    topc (addCancellationReason exDf) = topc exDf ∧
    (addCancellationReason exDf).length = exDf.length :=
  ⟨(C7_frame_amended exDf).2.2.2, (C7_frame_amended exDf).2.2.1⟩

/-- C8: loading reads at most 50000 rows (`nrows=50000`), keeps every read
row, and on each loaded row `Route = Origin + "-" + Dest`, `DepHour` is the
floor division of `DepTime` by 100 (0 when `DepTime` is missing, since
`fillna(0)` runs first), and each missing delay-minute value is coerced
to 0. -/
theorem C8_load_data_contract (raws : List RawRow) (r : RawRow) (v : Int) :
    (load_data raws).length = min 50000 raws.length ∧
    (r ∈ raws.take 50000 → processRow r ∈ load_data raws) ∧
    (processRow r).route = r.origin ++ "-" ++ r.dest ∧
    (r.depTime = some v → (processRow r).depHour = v.fdiv 100) ∧
    (r.depTime = none → (processRow r).depHour = 0) ∧
    (processRow r).arrDelay = r.arrDelay.getD 0 ∧
    (processRow r).depDelay = r.depDelay.getD 0 ∧
    (processRow r).carrierDelay = r.carrierDelay.getD 0 ∧
    (processRow r).weatherDelay = r.weatherDelay.getD 0 ∧
    (processRow r).nasDelay = r.nasDelay.getD 0 ∧
    (processRow r).securityDelay = r.securityDelay.getD 0 ∧
    (processRow r).lateAircraftDelay = r.lateAircraftDelay.getD 0 := by
  refine ⟨?_, ?_, rfl, ?_, ?_, rfl, rfl, rfl, rfl, rfl, rfl, rfl⟩
  · rw [load_data, List.length_map, List.length_take]
  · exact fun h => List.mem_map_of_mem _ h
  · intro h
    simp [processRow, h]
  · intro h
    simp [processRow, h]

/-- Witness for C8 at the three-row spec §8 example input. -/
theorem C8_load_data_witness :
    (load_data [exRaw1, exRaw2, exRaw3]).length = min 50000 3 ∧
    processRow exRaw2 ∈ load_data [exRaw1, exRaw2, exRaw3] ∧
    (processRow exRaw2).depHour = Int.fdiv 1234 100 ∧
    (processRow exRaw3).depHour = 0 :=
  ⟨(C8_load_data_contract [exRaw1, exRaw2, exRaw3] exRaw2 1234).1,
    (C8_load_data_contract [exRaw1, exRaw2, exRaw3] exRaw2 1234).2.1 (by decide),
    (C8_load_data_contract [exRaw1, exRaw2, exRaw3] exRaw2 1234).2.2.2.1 rfl,
    (C8_load_data_contract [exRaw1, exRaw2, exRaw3] exRaw3 0).2.2.2.2.1 rfl⟩

/-- C9 counterexample: src/app.py consults no precomputed summary table —
line 106 always computes the monthly trend from the loaded full table.  With
the spec's precomputed `monthly_stats` = [(Month=1, avg_arr_delay=12.5,
cancellations=3)] present and the spec §8 example table loaded, the code's
chart data (`monthlyTrend`) differs from what the claim's resolution rule
(the spec-modelled `monthlyTrendResolve`) requires, refuting "uses a
precomputed summary table when it is present". -/
theorem C9_precomputed_counterexample :
    monthlyTrend exDf ≠
      monthlyTrendResolve
        (some [{ month := 1, avg_arr_delay := 12.5, cancellations := 3 }]) exDf := by
  intro h
  have hlen := congrArg List.length h
  rw [monthlyTrendResolve] at hlen
  have h2 : (monthlyTrend exDf).length = 2 := rfl
  rw [h2] at hlen
  exact absurd hlen (by decide)

/-- C9 (amended): none of the aggregations consults a precomputed summary
table; the monthly-trend chart data is always the group-by-Month aggregation
of the (filtered) full table — one row per distinct month of the table,
ordered by month ascending, carrying that month's mean `ArrDelay` and summed
`Cancelled`. -/
theorem C9_full_table_amended (df : List FlightRow) :
    List.Sorted (fun a b => a.month ≤ b.month) (monthlyTrend df) ∧
    ((monthlyTrend df).map (fun s => s.month)).Perm
      ((df.map (fun r => r.month)).dedup) ∧
    (∀ s ∈ monthlyTrend df,
      s.avg_arr_delay =
        listMean ((df.filter (fun r => r.month == s.month)).map (fun r => r.arrDelay)) ∧
      s.cancellations =
        ((df.filter (fun r => r.month == s.month)).map (fun r => r.cancelled)).sum) := by
  refine ⟨?_, ?_, ?_⟩
  · rw [monthlyTrend]
    refine List.pairwise_map.mpr ?_
    have hs : List.Sorted (fun a b : Int => a ≤ b)
        (sortAsc ((df.map (fun r => r.month)).dedup)) :=
      List.sorted_insertionSort _ _
    exact hs.imp (fun h => h)
  · have h : (monthlyTrend df).map (fun s => s.month) =
        sortAsc ((df.map (fun r => r.month)).dedup) := by
      rw [monthlyTrend, List.map_map]
      exact (List.map_congr_left (fun a _ => rfl)).trans (List.map_id _)
    rw [h]
    exact List.perm_insertionSort _ _
  · intro s hs
    rcases List.mem_map.mp hs with ⟨k, _, rfl⟩
    exact ⟨rfl, rfl⟩

/-- Witness for C9 (amended) at the spec §8 example table. -/
theorem C9_full_table_witness :
    List.Sorted (fun a b => a.month ≤ b.month) (monthlyTrend exDf) ∧
    ((monthlyTrend exDf).map (fun s => s.month)).Perm
      ((exDf.map (fun r => r.month)).dedup) :=
  ⟨(C9_full_table_amended exDf).1, (C9_full_table_amended exDf).2.1⟩

/-- C10: on every fresh run — whatever the data directory holds and whatever
the files parse to — line 28 of src/app.py evaluates `os.path.exists(csv_path)`
with the name `csv_path` unbound (only `zip_path`, line 24, and `csv_file`,
line 43, are ever assigned), so the script stops with a `NameError` before
the zip extraction, CSV discovery or any dataset load runs. -/
theorem C10_undefined_csv_path (files : List String)
    (contents : String → List RawRow) :
    runScript files contents = Except.error (PyError.nameError "csv_path") :=
  rfl

/-- Witness for C10 at a concrete data-directory listing. -/
theorem C10_undefined_csv_path_witness :
    runScript ["DelayedFlights.csv"] (fun _ => []) =
      Except.error (PyError.nameError "csv_path") :=
  C10_undefined_csv_path ["DelayedFlights.csv"] (fun _ => [])

end AirFly
